import Mathlib

/-!
Verification of the fork-management scripts and build configuration of the
`peterkc/cipher` repository: a shallow embedding, in Lean 4, of the shell
scripts `scripts/resolve-rebase-conflicts.sh`, `scripts/rebase-from-upstream.sh`,
`scripts/sync-upstream.sh`, `scripts/fork-health.sh`, `docker/scripts/build.sh`
and of the buildx bake configuration (`docker-bake.hcl`), together with
theorems settling the behavioural claims about them.

The scripts are sequences of external commands guarded by exit-code tests.
Each script is embedded as a function from an abstract environment (the
outcomes of the external commands it invokes: did the rebase conflict, did the
tests pass, which files are in a conflicted state, ...) to the trace of
state-changing commands it issues and its own exit code.  Plumbing commands
that only print are not part of the traces.  `set -e` (errexit) semantics are
embedded explicitly where a script enables it: a plain command that fails
terminates the script with that command's exit status, while commands used as
`if` conditions are exempt.
-/

namespace Cipher

/-! ## scripts/resolve-rebase-conflicts.sh

The script runs `set -euo pipefail`, checks that a rebase is in progress
(else exit 1), then iterates the hardcoded `KEEP_OURS` array: for each file
whose `git status --porcelain` entry matches `^UU.*f|^DU.*f|^UD.*f`, if
`git show :2:f` succeeds (the `ours` index stage exists) it runs
`git checkout --ours f` and `git add f` and then executes the arithmetic
command `((resolved_count++))`.  In bash, `((resolved_count++))` evaluates the
post-increment expression, whose value is the OLD value of `resolved_count`;
an arithmetic command whose value is 0 has exit status 1, and under `set -e`
a failing plain command terminates the script.  Hence the first increment
(from 0) kills the script with status 1.  The `TAKE_THEIRS` array is empty.
The trailing summary / remaining-conflict listing only prints.
-/

/-- A state-changing git command issued by resolve-rebase-conflicts.sh. -/
inductive GitCmd where
  | checkoutOurs (file : String)
  | checkoutTheirs (file : String)
  | gitAdd (file : String)
  deriving DecidableEq, Repr

/-- The file a `GitCmd` operates on. -/
def GitCmd.targetFile : GitCmd → String
  | .checkoutOurs f => f
  | .checkoutTheirs f => f
  | .gitAdd f => f

/-- Abstract git repository state observed by resolve-rebase-conflicts.sh:
`inRebase` is whether `git status` reports "rebase in progress";
`conflicted f` is whether the `git status --porcelain` output has a line
matching `^UU.*f|^DU.*f|^UD.*f`; `oursStage f` / `theirsStage f` are whether
`git show :2:f` / `git show :3:f` succeed. -/
structure RebaseConflictState where
  inRebase : Bool
  conflicted : String → Bool
  oursStage : String → Bool
  theirsStage : String → Bool

/-- The hardcoded KEEP_OURS array, in the script's order. -/
def KEEP_OURS : List String :=
  ["package.json", "bun.lock", "biome.json", "lefthook.yml",
   "justfile", "bunfig.toml", ".gitignore"]

/-- The hardcoded TAKE_THEIRS array (empty in the source). -/
def TAKE_THEIRS : List String := []

/-- Loop accumulator of the script: the current value of `resolved_count`,
the trace of git commands issued so far, and `some c` once `set -e` has
terminated the script with exit status `c` (after which nothing more runs). -/
abbrev ResolveAcc := Nat × List GitCmd × Option Nat

/-- One iteration of the KEEP_OURS loop.  When the file is conflicted and the
`ours` stage exists, the script runs `git checkout --ours f` (failure ignored
via `|| echo`), `git add f` (failure ignored via `|| true`), then
`((resolved_count++))`: when `resolved_count` is 0 the arithmetic command
fails and `set -e` terminates the script with status 1. -/
def resolveStepOurs (st : RebaseConflictState) (acc : ResolveAcc) (f : String) :
    ResolveAcc :=
  match acc with
  | (cnt, acts, some c) => (cnt, acts, some c)
  | (cnt, acts, none) =>
    if st.conflicted f then
      if st.oursStage f then
        let acts := acts ++ [GitCmd.checkoutOurs f, GitCmd.gitAdd f]
        if cnt = 0 then (cnt + 1, acts, some 1) else (cnt + 1, acts, none)
      else (cnt, acts, none)
    else (cnt, acts, none)

/-- One iteration of the TAKE_THEIRS loop (same structure, `theirs` side). -/
def resolveStepTheirs (st : RebaseConflictState) (acc : ResolveAcc) (f : String) :
    ResolveAcc :=
  match acc with
  | (cnt, acts, some c) => (cnt, acts, some c)
  | (cnt, acts, none) =>
    if st.conflicted f then
      if st.theirsStage f then
        let acts := acts ++ [GitCmd.checkoutTheirs f, GitCmd.gitAdd f]
        if cnt = 0 then (cnt + 1, acts, some 1) else (cnt + 1, acts, none)
      else (cnt, acts, none)
    else (cnt, acts, none)

/-- Observable outcome of a script run: the trace of state-changing commands
and the script's exit code. -/
structure ScriptRun where
  acts : List GitCmd
  exitCode : Nat
  deriving DecidableEq, Repr

/-- resolve-rebase-conflicts.sh: exit 1 when not in a rebase; otherwise fold
the two loops over KEEP_OURS and TAKE_THEIRS; the trailing summary and the
remaining-conflict listing only print, so a run that survives both loops
exits 0. -/
def resolveRebaseConflicts (st : RebaseConflictState) : ScriptRun :=
  if st.inRebase then
    let r := KEEP_OURS.foldl (resolveStepOurs st) (0, [], none)
    let r := TAKE_THEIRS.foldl (resolveStepTheirs st) r
    { acts := r.2.1, exitCode := r.2.2.getD 0 }
  else
    { acts := [], exitCode := 1 }

/-! ## scripts/rebase-from-upstream.sh

`set -euo pipefail`.  Sequence: run `./scripts/check-rebase-readiness.sh`
(exit 1 on failure); ask the user to confirm (exit 0 on decline); create the
backup branch `backup/before-rebase-$(date +%Y%m%d-%H%M%S)` with `git branch`;
create the integration branch `integrate/upstream-$(date +%Y%m%d)` with
`git checkout -b`; run `git rebase upstream/main` as an `if` condition.  On a
clean rebase it runs `bun run test:unit` (as an `if` condition) and ends with
prints either way, so it exits 0 whether or not the tests pass.  On a
conflicted rebase it runs `./scripts/resolve-rebase-conflicts.sh` as a plain
command — under `set -e` a nonzero exit of that script terminates this one
with the same status — then prints instructions and exits 0.  The script
contains no `git fetch` and never deletes a branch. -/

/-- A command issued by rebase-from-upstream.sh (state-changing commands and
the external scripts/tools it invokes).  `branchDelete` is included so that
its absence from every trace is expressible; the script never issues it. -/
inductive RebaseCmd where
  | readinessCheck
  | gitFetch
  | branchCreate (name : String)
  | checkoutNewBranch (name : String)
  | gitRebase
  | runResolveScript
  | runUnitTests
  | branchDelete (name : String)
  deriving DecidableEq, Repr

/-- Environment of a rebase-from-upstream.sh run: outcomes of the external
commands and the two `date` expansions. -/
structure RebaseEnv where
  readinessOk : Bool
  userConfirms : Bool
  rebaseSucceeds : Bool
  testsPass : Bool
  resolveExitCode : Nat
  timestamp : String
  dateStamp : String

/-- Trace and exit code of a rebase-from-upstream.sh run. -/
structure RebaseRun where
  trace : List RebaseCmd
  exitCode : Nat
  deriving DecidableEq, Repr

/-- The backup branch name template of rebase-from-upstream.sh. -/
def backupBranchName (env : RebaseEnv) : String :=
  "backup/before-rebase-" ++ env.timestamp

/-- The integration branch name template of rebase-from-upstream.sh. -/
def integrationBranchName (env : RebaseEnv) : String :=
  "integrate/upstream-" ++ env.dateStamp

/-- rebase-from-upstream.sh as a function from its environment to its trace
and exit code. -/
def rebaseFromUpstream (env : RebaseEnv) : RebaseRun :=
  if !env.readinessOk then
    { trace := [RebaseCmd.readinessCheck], exitCode := 1 }
  else if !env.userConfirms then
    { trace := [RebaseCmd.readinessCheck], exitCode := 0 }
  else
    let pre : List RebaseCmd :=
      [RebaseCmd.readinessCheck,
       RebaseCmd.branchCreate (backupBranchName env),
       RebaseCmd.checkoutNewBranch (integrationBranchName env),
       RebaseCmd.gitRebase]
    if env.rebaseSucceeds then
      { trace := pre ++ [RebaseCmd.runUnitTests], exitCode := 0 }
    else
      { trace := pre ++ [RebaseCmd.runResolveScript],
        exitCode := env.resolveExitCode }

/-! ## scripts/sync-upstream.sh

`set -e`.  Sequence: `git fetch upstream`; count upstream-only commits
(`git log --oneline HEAD..upstream/main | wc -l`); when the count is 0 print
"Fork is current" and `exit 0`.  Otherwise compute a `git merge-tree` preview;
when it contains the marker `<<<<<<< ` print the manual-resolution workflow
and `exit 1` without touching the repository.  Otherwise prompt the user and,
on confirmation, run `git rebase upstream/main`; either way the script then
ends with prints (exit 0). -/

/-- A state-changing command issued by sync-upstream.sh. -/
inductive SyncCmd where
  | gitFetch
  | gitRebase
  deriving DecidableEq, Repr

/-- Environment of a sync-upstream.sh run. -/
structure SyncEnv where
  upstreamCommits : Nat
  conflictMarkers : Bool
  userConfirms : Bool

/-- Trace and exit code of a sync-upstream.sh run. -/
structure SyncRun where
  trace : List SyncCmd
  exitCode : Nat
  deriving DecidableEq, Repr

/-- sync-upstream.sh as a function from its environment to its trace and
exit code. -/
def syncUpstream (env : SyncEnv) : SyncRun :=
  if env.upstreamCommits = 0 then
    { trace := [SyncCmd.gitFetch], exitCode := 0 }
  else if env.conflictMarkers then
    { trace := [SyncCmd.gitFetch], exitCode := 1 }
  else if env.userConfirms then
    { trace := [SyncCmd.gitFetch, SyncCmd.gitRebase], exitCode := 0 }
  else
    { trace := [SyncCmd.gitFetch], exitCode := 0 }

/-! ## scripts/fork-health.sh (health score)

No `set` options.  The script sets `build_status` to "pass"/"fail" from
`bun run build`, `test_status` from `bun run test:ci`, and `ts_status` to
"pass" when `bun run typecheck` succeeds and "issues" (never "fail") when it
does not.  `bun_version`, `lefthook_version`, `biome_version` are assigned the
tool's output only when the corresponding availability check succeeded;
otherwise they stay unset and expand to the empty string.  The tally is
`[ "$build_status" = "pass" ] && ((health_score++))` and similar lines, with
the TypeScript line testing `[ "$ts_status" != "fail" ]`, and
`health_percentage=$((health_score * 100 / total_checks))` with
`total_checks=6`. -/

/-- Environment of a fork-health.sh run: the exit status of each invoked
command and the stdout of the three version commands. -/
structure ForkHealthEnv where
  buildOk : Bool
  testOk : Bool
  typecheckOk : Bool
  bunOk : Bool
  bunVersionOut : String
  lefthookOk : Bool
  lefthookVersionOut : String
  biomeOk : Bool
  biomeVersionOut : String

/-- The `build_status` shell variable. -/
def build_status (e : ForkHealthEnv) : String :=
  if e.buildOk then "pass" else "fail"

/-- The `test_status` shell variable. -/
def test_status (e : ForkHealthEnv) : String :=
  if e.testOk then "pass" else "fail"

/-- The `ts_status` shell variable: "pass" or "issues", never "fail". -/
def ts_status (e : ForkHealthEnv) : String :=
  if e.typecheckOk then "pass" else "issues"

/-- The `bun_version` shell variable ("" when the check failed: the variable
is never assigned and the unquoted expansion is empty). -/
def bun_version (e : ForkHealthEnv) : String :=
  if e.bunOk then e.bunVersionOut else ""

/-- The `lefthook_version` shell variable. -/
def lefthook_version (e : ForkHealthEnv) : String :=
  if e.lefthookOk then e.lefthookVersionOut else ""

/-- The `biome_version` shell variable. -/
def biome_version (e : ForkHealthEnv) : String :=
  if e.biomeOk then e.biomeVersionOut else ""

/-- The `total_checks` shell variable. -/
def total_checks : Nat := 6

/-- The `health_score` tally: one point per passed check, where the
TypeScript line counts whenever `ts_status` differs from "fail". -/
def health_score (e : ForkHealthEnv) : Nat :=
  (if build_status e = "pass" then 1 else 0) +
  (if test_status e = "pass" then 1 else 0) +
  (if ts_status e ≠ "fail" then 1 else 0) +
  (if bun_version e ≠ "" then 1 else 0) +
  (if lefthook_version e ≠ "" then 1 else 0) +
  (if biome_version e ≠ "" then 1 else 0)

/-- `health_percentage=$((health_score * 100 / total_checks))`. -/
def health_percentage (e : ForkHealthEnv) : Nat :=
  health_score e * 100 / total_checks

/-- Score as the specification sentence reads it: one point per check whose
underlying command succeeded (build, tests, typecheck, and the three tool
availability commands).  Defined from the spec's words, to be compared with
`health_score`, which is defined from the source. -/
def specClaimedScore (e : ForkHealthEnv) : Nat :=
  (if e.buildOk then 1 else 0) +
  (if e.testOk then 1 else 0) +
  (if e.typecheckOk then 1 else 0) +
  (if e.bunOk then 1 else 0) +
  (if e.lefthookOk then 1 else 0) +
  (if e.biomeOk then 1 else 0)

/-- Percentage as the specification sentence reads it. -/
def specClaimedPercentage (e : ForkHealthEnv) : Nat :=
  specClaimedScore e * 100 / total_checks

/-! ## Shell scripts and their `set` options (claim C3)

One record per shell script of the repository (files with a `sh`/`bash`
shebang; the justfile and the TypeScript scripts are not shell scripts),
transcribing the `set` line at its top:
  scripts/compare-with-upstream.sh      `set -euo pipefail`
  scripts/fork-health.sh                (no set line)
  scripts/resolve-rebase-conflicts.sh   `set -euo pipefail`
  scripts/sync-upstream.sh              `set -e`
  scripts/rebase-from-upstream.sh       `set -euo pipefail`
  docker/scripts/build.sh               `set -euo pipefail`
  docker/scripts/common-packages.sh     `set -eux;`
  docker buildx setup script            `set -euo pipefail` -/

/-- A shell script of the repository and the `set` options it enables. -/
structure ShellScript where
  path : String
  errexit : Bool
  nounset : Bool
  pipefail : Bool
  deriving DecidableEq, Repr

/-- The shell scripts of the repository with their `set` options,
transcribed from the sources. -/
def repoShellScripts : List ShellScript :=
  [⟨"scripts/compare-with-upstream.sh", true, true, true⟩,
   ⟨"scripts/fork-health.sh", false, false, false⟩,
   ⟨"scripts/resolve-rebase-conflicts.sh", true, true, true⟩,
   ⟨"scripts/sync-upstream.sh", true, false, false⟩,
   ⟨"scripts/rebase-from-upstream.sh", true, true, true⟩,
   ⟨"docker/scripts/build.sh", true, true, true⟩,
   ⟨"docker/scripts/common-packages.sh", true, true, false⟩,
   ⟨"docker/scripts/buildx-setup.sh", true, true, true⟩]

/-! ## Buildx bake configuration (docker-bake.hcl)

Variables: `PUSH_TO_REGISTRY` defaults to "false", `OUTPUT_TYPE` defaults to
"docker".  Targets: `cipher-base` declares `output = ["type=docker"]`
unconditionally; `cipher-dev` and `cipher-prod` declare
`output = [PUSH_TO_REGISTRY == "true" ? "type=registry" : "type=${OUTPUT_TYPE}"]`;
`cipher-release` inherits `cipher-prod` and does not override `output`, so it
carries the same conditional. -/

/-- The image build targets declared in docker-bake.hcl. -/
inductive BakeTarget where
  | base
  | dev
  | prod
  | release
  deriving DecidableEq, Repr

/-- All targets declared in the bake file. -/
def bakeTargets : List BakeTarget :=
  [BakeTarget.base, BakeTarget.dev, BakeTarget.prod, BakeTarget.release]

/-- Default of the `PUSH_TO_REGISTRY` variable. -/
def PUSH_TO_REGISTRY_default : String := "false"

/-- Default of the `OUTPUT_TYPE` variable. -/
def OUTPUT_TYPE_default : String := "docker"

/-- The single `output` entry of each target, as a function of the two
variables.  `cipher-base` hardcodes `type=docker`; the other targets use the
conditional, `cipher-release` by inheritance from `cipher-prod`. -/
def targetOutput (t : BakeTarget) (pushToRegistry outputType : String) : String :=
  match t with
  | .base => "type=docker"
  | .dev => if pushToRegistry = "true" then "type=registry" else "type=" ++ outputType
  | .prod => if pushToRegistry = "true" then "type=registry" else "type=" ++ outputType
  | .release => if pushToRegistry = "true" then "type=registry" else "type=" ++ outputType

/-! ## docker/scripts/build.sh (verify_build)

`set -euo pipefail`.  `verify_build` initialises `errors=0`; if neither
`dist/cipher` nor `dist/index.js` exists it logs a failure and sets
`errors=1`; a missing `memAgent` directory only logs a warning; finally, when
`errors` is 0 it logs success, otherwise it calls `error_exit`, which exits
with status 1.  `main` calls it last, after a successful build. -/

/-- Filesystem facts `verify_build` inspects. -/
structure BuildFsState where
  distCipher : Bool
  distIndexJs : Bool
  memAgentDir : Bool
  deriving DecidableEq, Repr

/-- The `errors` counter at the end of `verify_build`. -/
def verify_build_errors (s : BuildFsState) : Nat :=
  if s.distCipher then 0 else if s.distIndexJs then 0 else 1

/-- `verify_build`: `Except.error c` models `error_exit` terminating the
script with status `c`; `Except.ok` models falling through. -/
def verify_build (s : BuildFsState) : Except Nat Unit :=
  if verify_build_errors s = 0 then Except.ok () else Except.error 1

end Cipher

namespace Cipher

/-! Concrete inputs used by witnesses and counterexamples. -/

/-- A rebase state in which `package.json` and `bun.lock` are both conflicted
and both index stages exist for every file. -/
def twoConflictsState : RebaseConflictState :=
  { inRebase := true
    conflicted := fun f => f == "package.json" || f == "bun.lock"
    oursStage := fun _ => true
    theirsStage := fun _ => true }

/-- A rebase-from-upstream.sh environment: readiness ok, user confirms,
rebase conflicts, conflict-resolution script exits 0. -/
def conflictedRebaseEnv : RebaseEnv :=
  { readinessOk := true, userConfirms := true, rebaseSucceeds := false,
    testsPass := true, resolveExitCode := 0,
    timestamp := "20250926-120000", dateStamp := "20250926" }

/-- A rebase-from-upstream.sh environment: everything succeeds. -/
def cleanRebaseEnv : RebaseEnv :=
  { readinessOk := true, userConfirms := true, rebaseSucceeds := true,
    testsPass := true, resolveExitCode := 0,
    timestamp := "20250926-120000", dateStamp := "20250926" }

/-- A fork-health.sh environment in which every invoked command fails. -/
def forkHealthAllFail : ForkHealthEnv :=
  { buildOk := false, testOk := false, typecheckOk := false,
    bunOk := false, bunVersionOut := "",
    lefthookOk := false, lefthookVersionOut := "",
    biomeOk := false, biomeVersionOut := "" }

/-- A fork-health.sh environment in which every invoked command succeeds
with nonempty version output. -/
def forkHealthAllPass : ForkHealthEnv :=
  { buildOk := true, testOk := true, typecheckOk := true,
    bunOk := true, bunVersionOut := "1.2.21",
    lefthookOk := true, lefthookVersionOut := "1.11.3",
    biomeOk := true, biomeVersionOut := "1.9.4" }

end Cipher

namespace Cipher

/-- Claim C1 (code bug): run `resolve-rebase-conflicts.sh` during a rebase in
which `package.json` and `bun.lock` are both conflicted, with both present in
the `ours` stage.  The claim says every conflicted allow-list file is checked
out `--ours` and staged; the script instead resolves only `package.json` and
then terminates with exit status 1 — `((resolved_count++))` evaluates to the
old value 0, so the arithmetic command fails and `set -e` aborts the run —
leaving `bun.lock` untouched and unstaged. -/
theorem C1_resolve_script_early_exit_eval :
    (resolveRebaseConflicts twoConflictsState).acts =
      [GitCmd.checkoutOurs "package.json", GitCmd.gitAdd "package.json"] ∧
    (resolveRebaseConflicts twoConflictsState).exitCode = 1 ∧
    GitCmd.checkoutOurs "bun.lock" ∉ (resolveRebaseConflicts twoConflictsState).acts := by
  decide

/-- Claim C3, counterexample: not every shell script of the repository
enables errexit — `scripts/fork-health.sh` sets no shell options at all. -/
theorem C3_errexit_counterexample :
    ¬ (∀ s ∈ repoShellScripts, s.errexit = true) := by
  decide

/-- Claim C3, amended: every shell script of the repository other than
`scripts/fork-health.sh` enables errexit (`set -euo pipefail`, `set -e` or
`set -eux`); `scripts/fork-health.sh` enables no shell options. -/
theorem C3_errexit_amended (s : ShellScript) (hs : s ∈ repoShellScripts)
    (hne : s.path ≠ "scripts/fork-health.sh") : s.errexit = true := by
  fin_cases hs <;> simp_all

/-- Witness for C3_errexit_amended at `docker/scripts/build.sh`. -/
theorem C3_errexit_amended_witness :
    (⟨"docker/scripts/build.sh", true, true, true⟩ : ShellScript).errexit = true :=
  C3_errexit_amended ⟨"docker/scripts/build.sh", true, true, true⟩ (by decide) (by decide)

/-- Claim C4, counterexample: in a run where every invoked command fails, the
claim's reading (one point per succeeded command) yields 0%, but the script
reports 16% — the TypeScript line `[ "$ts_status" != "fail" ]` counts even
though `bun run typecheck` failed. -/
theorem C4_health_counterexample :
    health_percentage forkHealthAllFail = 16 ∧
    specClaimedPercentage forkHealthAllFail = 0 ∧
    health_percentage forkHealthAllFail ≠ specClaimedPercentage forkHealthAllFail := by
  decide

/-- Claim C4, amended: the reported percentage is `score * 100 / 6` where the
build and test checks count exactly when their command succeeded, each tool
check counts exactly when its availability command succeeded (its version
output being nonempty), and the TypeScript check counts unconditionally,
because `ts_status` is "pass" or "issues" and the tally only excludes
"fail". -/
theorem C4_health_score_amended (e : ForkHealthEnv)
    (hb : e.bunOk = true → e.bunVersionOut ≠ "")
    (hl : e.lefthookOk = true → e.lefthookVersionOut ≠ "")
    (hm : e.biomeOk = true → e.biomeVersionOut ≠ "") :
    health_score e =
      ((if e.buildOk then 1 else 0) + (if e.testOk then 1 else 0) + 1 +
       (if e.bunOk then 1 else 0) + (if e.lefthookOk then 1 else 0) +
       (if e.biomeOk then 1 else 0)) ∧
    health_percentage e =
      ((if e.buildOk then 1 else 0) + (if e.testOk then 1 else 0) + 1 +
       (if e.bunOk then 1 else 0) + (if e.lefthookOk then 1 else 0) +
       (if e.biomeOk then 1 else 0)) * 100 / 6 := by
  rcases e with ⟨b, t, ts, bn, bns, lh, lhs, bm, bms⟩
  cases b <;> cases t <;> cases ts <;> cases bn <;> cases lh <;> cases bm <;>
    simp_all [health_percentage, health_score, build_status, test_status,
      ts_status, bun_version, lefthook_version, biome_version, total_checks]

/-- Witness for C4_health_score_amended at an all-pass environment. -/
theorem C4_health_score_amended_witness :
    health_score forkHealthAllPass = 6 ∧ health_percentage forkHealthAllPass = 100 := by
  have h := C4_health_score_amended forkHealthAllPass
    (fun _ => by decide) (fun _ => by decide) (fun _ => by decide)
  exact ⟨h.1.trans (by decide), h.2.trans (by decide)⟩

/-- Claim C5: sync-upstream.sh exits 0 when the upstream-commit count is 0,
and when the count is positive and the merge-tree preview contains conflict
markers it exits 1 having run nothing but the initial `git fetch` — in
particular no `git rebase`. -/
theorem C5_sync_exit_codes (env : SyncEnv) :
    (env.upstreamCommits = 0 → syncUpstream env = ⟨[SyncCmd.gitFetch], 0⟩) ∧
    (0 < env.upstreamCommits → env.conflictMarkers = true →
      syncUpstream env = ⟨[SyncCmd.gitFetch], 1⟩) := by
  constructor
  · intro h
    simp [syncUpstream, h]
  · intro h hm
    simp [syncUpstream, h.ne', hm]

/-- Witness for C5_sync_exit_codes: the up-to-date case and the conflicted
case at concrete environments. -/
theorem C5_sync_exit_codes_witness :
    syncUpstream ⟨0, false, false⟩ = ⟨[SyncCmd.gitFetch], 0⟩ ∧
    syncUpstream ⟨3, true, false⟩ = ⟨[SyncCmd.gitFetch], 1⟩ :=
  ⟨(C5_sync_exit_codes ⟨0, false, false⟩).1 rfl,
   (C5_sync_exit_codes ⟨3, true, false⟩).2 (by decide) rfl⟩

end Cipher

namespace Cipher

/-- Claim C2, counterexample: in a run that proceeds past confirmation and
whose rebase reports conflicts, the script runs the conflict-resolution
script but never runs the unit-test command, and no run ever invokes
`git fetch` — contradicting the claimed fetch → rebase → resolve → test
sequence. -/
theorem C2_rebase_workflow_counterexample :
    RebaseCmd.runResolveScript ∈ (rebaseFromUpstream conflictedRebaseEnv).trace ∧
    RebaseCmd.runUnitTests ∉ (rebaseFromUpstream conflictedRebaseEnv).trace ∧
    RebaseCmd.gitFetch ∉ (rebaseFromUpstream conflictedRebaseEnv).trace := by
  decide

/-- Claim C2, amended: in every run of rebase-from-upstream.sh that proceeds
past the user confirmation, the script performs no `git fetch` of its own (a
separate readiness script precedes the rebase), invokes `git rebase` onto
upstream/main, runs the conflict-resolution script exactly when the rebase
reports conflicts, runs the unit-test command exactly when the rebase
succeeds without conflicts, and its exit code is 0 on the clean path (even
when the tests fail) and equals the conflict-resolution script's exit status
on the conflicted path. -/
theorem C2_rebase_workflow_amended (env : RebaseEnv)
    (h1 : env.readinessOk = true) (h2 : env.userConfirms = true) :
    RebaseCmd.gitFetch ∉ (rebaseFromUpstream env).trace ∧
    RebaseCmd.gitRebase ∈ (rebaseFromUpstream env).trace ∧
    (RebaseCmd.runResolveScript ∈ (rebaseFromUpstream env).trace ↔
      env.rebaseSucceeds = false) ∧
    (RebaseCmd.runUnitTests ∈ (rebaseFromUpstream env).trace ↔
      env.rebaseSucceeds = true) ∧
    (rebaseFromUpstream env).exitCode =
      (if env.rebaseSucceeds then 0 else env.resolveExitCode) := by
  rcases env with ⟨r, u, rs, tp, rc, ts, ds⟩
  cases r
  · exact Bool.noConfusion h1
  · cases u
    · exact Bool.noConfusion h2
    · cases rs <;>
        simp [rebaseFromUpstream, backupBranchName, integrationBranchName]

/-- Witness for C2_rebase_workflow_amended at a clean-rebase environment. -/
theorem C2_rebase_workflow_amended_witness :
    RebaseCmd.gitFetch ∉ (rebaseFromUpstream cleanRebaseEnv).trace ∧
    RebaseCmd.gitRebase ∈ (rebaseFromUpstream cleanRebaseEnv).trace ∧
    RebaseCmd.runUnitTests ∈ (rebaseFromUpstream cleanRebaseEnv).trace ∧
    (rebaseFromUpstream cleanRebaseEnv).exitCode = 0 := by
  have h := C2_rebase_workflow_amended cleanRebaseEnv rfl rfl
  exact ⟨h.1, h.2.1, h.2.2.2.1.mpr rfl, by simpa using h.2.2.2.2⟩

/-- Claim C6: in every run of rebase-from-upstream.sh that proceeds past the
user confirmation, the trace begins with the readiness check, the creation of
the branch `backup/before-rebase-<timestamp>` at the pre-rebase HEAD, the
creation of the integration branch, and only then `git rebase`; and no branch
deletion ever appears in the trace, so the backup branch still exists at
termination whatever the rebase, the conflict resolution or the tests did. -/
theorem C6_backup_branch_invariant (env : RebaseEnv)
    (h1 : env.readinessOk = true) (h2 : env.userConfirms = true) :
    (∃ rest, (rebaseFromUpstream env).trace =
      [RebaseCmd.readinessCheck,
       RebaseCmd.branchCreate (backupBranchName env),
       RebaseCmd.checkoutNewBranch (integrationBranchName env),
       RebaseCmd.gitRebase] ++ rest) ∧
    (∀ n, RebaseCmd.branchDelete n ∉ (rebaseFromUpstream env).trace) := by
  rcases env with ⟨r, u, rs, tp, rc, ts, ds⟩
  cases r
  · exact Bool.noConfusion h1
  · cases u
    · exact Bool.noConfusion h2
    · cases rs
      · exact ⟨⟨[RebaseCmd.runResolveScript], rfl⟩,
          fun n => by
            simp [rebaseFromUpstream, backupBranchName, integrationBranchName]⟩
      · exact ⟨⟨[RebaseCmd.runUnitTests], rfl⟩,
          fun n => by
            simp [rebaseFromUpstream, backupBranchName, integrationBranchName]⟩

/-- Witness for C6_backup_branch_invariant at a conflicted-rebase
environment. -/
theorem C6_backup_branch_invariant_witness :
    (∃ rest, (rebaseFromUpstream conflictedRebaseEnv).trace =
      [RebaseCmd.readinessCheck,
       RebaseCmd.branchCreate (backupBranchName conflictedRebaseEnv),
       RebaseCmd.checkoutNewBranch (integrationBranchName conflictedRebaseEnv),
       RebaseCmd.gitRebase] ++ rest) ∧
    (∀ n, RebaseCmd.branchDelete n ∉ (rebaseFromUpstream conflictedRebaseEnv).trace) :=
  C6_backup_branch_invariant conflictedRebaseEnv rfl rfl

/-- Claim C7, counterexample: `cipher-base` is a declared target whose output
is hardcoded to `type=docker`, so with `PUSH_TO_REGISTRY = "true"` its output
is still not `type=registry`, refuting the claimed equivalence for every
declared target. -/
theorem C7_bake_output_counterexample :
    BakeTarget.base ∈ bakeTargets ∧
    targetOutput BakeTarget.base "true" OUTPUT_TYPE_default ≠ "type=registry" := by
  decide

/-- Claim C7, amended: for the `cipher-dev`, `cipher-prod` and
`cipher-release` targets the output is `type=registry` when
`PUSH_TO_REGISTRY` equals "true" and `type=<OUTPUT_TYPE>` (default
`type=docker`) otherwise; the `cipher-base` target's output is always
`type=docker` regardless of the variables. -/
theorem C7_bake_output_amended (t : BakeTarget) (push out : String) :
    (t ≠ BakeTarget.base →
      targetOutput t push out =
        (if push = "true" then "type=registry" else "type=" ++ out)) ∧
    (t = BakeTarget.base → targetOutput t push out = "type=docker") := by
  cases t <;> simp [targetOutput]

/-- Witness for C7_bake_output_amended at `cipher-dev` with
`PUSH_TO_REGISTRY = "true"` and at `cipher-base`. -/
theorem C7_bake_output_amended_witness :
    targetOutput BakeTarget.dev "true" OUTPUT_TYPE_default = "type=registry" ∧
    targetOutput BakeTarget.base "true" OUTPUT_TYPE_default = "type=docker" :=
  ⟨((C7_bake_output_amended BakeTarget.dev "true" OUTPUT_TYPE_default).1
      (by decide)).trans (by decide),
   (C7_bake_output_amended BakeTarget.base "true" OUTPUT_TYPE_default).2 rfl⟩

/-- Claim C8: `ts_status` is never "fail", so the TypeScript line of the
tally always scores; hence the health score is at least 1 and the reported
percentage at least 16 in every run, even when every command fails. -/
theorem C8_ts_never_fail_min_score (e : ForkHealthEnv) :
    ts_status e ≠ "fail" ∧ 1 ≤ health_score e ∧ 16 ≤ health_percentage e := by
  have hts : ts_status e ≠ "fail" := by
    unfold ts_status
    split <;> decide
  have h1 : 1 ≤ health_score e := by
    unfold health_score
    rw [if_pos hts]
    omega
  refine ⟨hts, h1, ?_⟩
  have h100 : 100 ≤ health_score e * 100 := by omega
  calc 16 = 100 / 6 := by decide
    _ ≤ health_score e * 100 / 6 := Nat.div_le_div_right h100
    _ = health_percentage e := rfl

/-- Claim C10: `verify_build` terminates the build script with a nonzero
status exactly when neither `dist/cipher` nor `dist/index.js` exists; the
`memAgent` directory check only logs and never changes the outcome. -/
theorem C10_verify_build_iff (s : BuildFsState) :
    (verify_build s = Except.error 1 ↔
      s.distCipher = false ∧ s.distIndexJs = false) ∧
    verify_build ⟨s.distCipher, s.distIndexJs, true⟩ =
      verify_build ⟨s.distCipher, s.distIndexJs, false⟩ := by
  rcases s with ⟨c, i, m⟩
  cases c <;> cases i <;> cases m <;>
    simp [verify_build, verify_build_errors]

end Cipher

namespace Cipher

/-- Auxiliary: one KEEP_OURS iteration either leaves the trace unchanged or
appends commands on the iterated file only. -/
theorem mem_resolveStepOurs_acts (st : RebaseConflictState) (acc : ResolveAcc)
    (f : String) (c : GitCmd) (hc : c ∈ (resolveStepOurs st acc f).2.1) :
    c ∈ acc.2.1 ∨ c.targetFile = f := by
  rcases acc with ⟨cnt, acts, dead⟩
  cases dead with
  | some e => exact Or.inl hc
  | none =>
    simp only [resolveStepOurs] at hc
    split at hc
    · split at hc
      · split at hc <;>
          (rcases List.mem_append.mp hc with h | h
           · exact Or.inl h
           · right
             simp only [List.mem_cons, List.not_mem_nil, or_false] at h
             rcases h with rfl | rfl <;> rfl)
      · exact Or.inl hc
    · exact Or.inl hc

/-- Auxiliary: folding the KEEP_OURS loop over a list only adds commands
whose file belongs to that list. -/
theorem foldl_resolveStepOurs_acts (st : RebaseConflictState) (l : List String) :
    ∀ acc : ResolveAcc, ∀ c ∈ (l.foldl (resolveStepOurs st) acc).2.1,
      c ∈ acc.2.1 ∨ c.targetFile ∈ l := by
  induction l with
  | nil => exact fun acc c hc => Or.inl hc
  | cons f fs ih =>
    intro acc c hc
    rcases ih (resolveStepOurs st acc f) c hc with h | h
    · rcases mem_resolveStepOurs_acts st acc f c h with h2 | h2
      · exact Or.inl h2
      · exact Or.inr (by simp [h2])
    · exact Or.inr (List.mem_cons_of_mem f h)

/-- Claim C9: every `git checkout`/`git add` the conflict-resolution script
issues targets a file of the KEEP_OURS or TAKE_THEIRS lists; conflicted files
outside the lists are only printed in the manual-resolution listing and never
touched. -/
theorem C9_frame_only_listed_files (st : RebaseConflictState) (c : GitCmd)
    (hc : c ∈ (resolveRebaseConflicts st).acts) :
    c.targetFile ∈ KEEP_OURS ∨ c.targetFile ∈ TAKE_THEIRS := by
  unfold resolveRebaseConflicts at hc
  split at hc
  · rcases foldl_resolveStepOurs_acts st KEEP_OURS (0, [], none) c hc with h | h
    · simp at h
    · exact Or.inl h
  · simp at hc

/-- Witness for C9_frame_only_listed_files: the checkout of `package.json`
issued in the two-conflict run targets a KEEP_OURS file. -/
theorem C9_frame_only_listed_files_witness :
    (GitCmd.checkoutOurs "package.json").targetFile ∈ KEEP_OURS ∨
    (GitCmd.checkoutOurs "package.json").targetFile ∈ TAKE_THEIRS :=
  C9_frame_only_listed_files twoConflictsState
    (GitCmd.checkoutOurs "package.json") (by decide)

end Cipher
